import Mathlib

/-!
validagen: rule model, model validator, default resolver, dependency inferencer.

A shallow embedding of `generator/generator.go`.

* Go `string` is `String`, Go `int` is `Int`, `fs.FileMode` (a `uint32`) is `Nat`
  with the conversion `fs.FileMode(x)` written as reduction modulo `2 ^ 32`.
* A Go `map[string]T` is the list of its entries `List (String × T)` in the order
  in which a `range` loop visits them.
* A Go `error` is `Option validation.Error`: `none` is `nil`.
* Pointer receivers that are mutated (`vs *ValidateStruct`) become functions that
  return the updated record.
* The parts of `github.com/go-ozzo/ozzo-validation/v4` that `generator.go` calls are
  embedded in the namespaces `validation` and `is`.
-/

set_option autoImplicit false

/-! ## The validation library used by `generator.go` -/

namespace validation

/-- An error of the validation library: a plain message (an `ErrorObject`, or the result
of `errors.New`), or an `Errors` map from field names / map keys to errors. -/
inductive Error where
  | msg (text : String)
  | errs (fields : List (String × Error))

/-- `Validate(value, rules...)` for a value that is not itself validatable: the rules
run in order and the first error is returned. -/
def Validate {α : Type} (value : α) : List (α → Option Error) → Option Error
  | [] => none
  | rule :: rules =>
    match rule value with
    | some e => some e
    | none => Validate value rules

/-- `validateMap`: every entry is validated with its own `Validate` method and the errors
are collected under the entry keys; the result is `nil` when no entry failed. -/
def validateMap {β : Type} (validate : β → Option Error) (m : List (String × β)) :
    Option Error :=
  let errs := m.filterMap (fun kv => (validate kv.2).map (fun e => (kv.1, e)))
  if errs.isEmpty then none else some (Error.errs errs)

/-- `Validate(value, rules...)` for a map whose element type implements `Validatable`:
the rules run first (first error wins), then `validateMap` validates the entries. -/
def ValidateMap {β : Type} (value : List (String × β))
    (rules : List (List (String × β) → Option Error)) (validate : β → Option Error) :
    Option Error :=
  match Validate value rules with
  | some e => some e
  | none => validateMap validate value

/-- `ValidateStruct(&s, fields...)`: each `Field(&s.F, rules...)` has been validated on its
own (second component); the errors are collected under the field names and the result is
`nil` when there is none. No field of `generator.go` can raise an internal error. -/
def ValidateStruct (fields : List (String × Option Error)) : Option Error :=
  let errs := fields.filterMap (fun f => f.2.map (fun e => (f.1, e)))
  if errs.isEmpty then none else some (Error.errs errs)

/-- `validation.Required` on a string: the empty string is rejected. -/
def RequiredString (value : String) : Option Error :=
  if value = "" then some (Error.msg "cannot be blank") else none

/-- `validation.Required` on a map: a map with no entry is rejected. -/
def RequiredMap {β : Type} (value : List (String × β)) : Option Error :=
  if value.isEmpty then some (Error.msg "cannot be blank") else none

/-- `validation.In(elements...)` on a string: an empty value is skipped, any other value
must be one of the elements. -/
def In (elements : List String) (value : String) : Option Error :=
  if value = "" then none
  else if elements.contains value then none
  else some (Error.msg "must be a valid value")

/-- `validation.Min(threshold)` on an int: the zero value is skipped, any other value
must be at least the threshold. -/
def Min (threshold : Int) (value : Int) : Option Error :=
  if value = 0 then none
  else if value ≥ threshold then none
  else some (Error.msg ("must be no less than " ++ toString threshold))

/-- `validation.Max(threshold)` on an int: the zero value is skipped, any other value
must be at most the threshold. -/
def Max (threshold : Int) (value : Int) : Option Error :=
  if value = 0 then none
  else if value ≤ threshold then none
  else some (Error.msg ("must be no greater than " ++ toString threshold))

/-- `validation.By(f)`: the rule that calls `f` on the value. -/
def By {α : Type} (f : α → Option Error) (value : α) : Option Error :=
  f value

end validation

namespace is

/-- One character of the class `[a-zA-Z0-9]`. -/
def isAlphanumericChar (c : Char) : Bool :=
  ('a' ≤ c && c ≤ 'z') || ('A' ≤ c && c ≤ 'Z') || ('0' ≤ c && c ≤ '9')

/-- `govalidator.IsAlphanumeric`: the empty string, or a match of `^[a-zA-Z0-9]+$`. -/
def IsAlphanumeric (str : String) : Bool :=
  str.data.all isAlphanumericChar

/-- `is.Alphanumeric`, a string rule: an empty value is skipped, any other value must
consist of English letters and digits. -/
def Alphanumeric (value : String) : Option validation.Error :=
  if value = "" then none
  else if IsAlphanumeric value then none
  else some (validation.Error.msg "must contain English letters and digits only")

end is

/-! ## `generator.go` -/

namespace generator

/-- Bit pattern of a Go `float32`. -/
abbrev Float32 := Nat

/-- `TypedList`. -/
structure TypedList where
  Int : List Int := []
  Float : List Float32 := []
  String : List String := []

/-- `ValidateIsRule`. -/
structure ValidateIsRule where
  Email : Bool := false
  EmailFormat : Bool := false
  URL : Bool := false
  RequestURL : Bool := false
  RequestURI : Bool := false
  Alpha : Bool := false
  Digit : Bool := false
  Alphanumeric : Bool := false
  UTFLetter : Bool := false
  UTFDigit : Bool := false
  UTFLetterNumeric : Bool := false
  UTFNumeric : Bool := false
  LowerCase : Bool := false
  UpperCase : Bool := false
  Hexadecimal : Bool := false
  HexColor : Bool := false
  RGBColor : Bool := false
  Int : Bool := false
  Float : Bool := false
  UUIDv3 : Bool := false
  UUIDv4 : Bool := false
  UUIDv5 : Bool := false
  UUID : Bool := false
  CreditCard : Bool := false
  ISBN10 : Bool := false
  ISBN13 : Bool := false
  ISBN : Bool := false
  JSON : Bool := false
  ASCII : Bool := false
  PrintableASCII : Bool := false
  Multibyte : Bool := false
  FullWidth : Bool := false
  HalfWidth : Bool := false
  VariableWidth : Bool := false
  Base64 : Bool := false
  DataURI : Bool := false
  E164 : Bool := false
  CountryCode2 : Bool := false
  CountryCode3 : Bool := false
  DialString : Bool := false
  MAC : Bool := false
  IP : Bool := false
  IPv4 : Bool := false
  IPv6 : Bool := false
  Subdomain : Bool := false
  Domain : Bool := false
  DNSName : Bool := false
  Host : Bool := false
  Port : Bool := false
  MongoID : Bool := false
  Latitude : Bool := false
  Longitude : Bool := false
  SSN : Bool := false
  Semver : Bool := false

/-- `ValidateRule`; the embedded `ValidateIsRule` is the field `Is`. The zero value of
every field but the recursive `Each` and `Else` is its default. -/
structure ValidateRule where
  In : TypedList := {}
  NotIn : TypedList := {}
  Length : List Int := []
  RuneLength : List Int := []
  Match : String := ""
  Date : String := ""
  Required : Bool := false
  NotNil : Bool := false
  Nil : Bool := false
  NilOrNotEmpty : Bool := false
  Empty : Bool := false
  MultipleOf : List TypedList := []
  Each : List ValidateRule
  Else : List ValidateRule
  Is : ValidateIsRule := {}

/-- `ValidateProperty`; the embedded `ValidateRule` is the field `Rule`. -/
structure ValidateProperty where
  Name : String := ""
  «Type» : String := ""
  Rule : ValidateRule := { Each := [], Else := [] }

/-- `ValidateStruct`. -/
structure ValidateStruct where
  Package : String := ""
  Name : String := ""
  Dir : String := ""
  FileName : String := ""
  FileMode : Int := 0
  Import : List String := []
  MethodName : String := ""
  Properties : List (String × ValidateProperty) := []

/-- `ValidateProject`. -/
structure ValidateProject where
  «Type» : String := ""
  MethodName : String := ""
  Template : String := ""
  Validators : List (String × ValidateStruct) := []

/-- `checkLength`: the `switch len(s)` with the cases `0`, `2` and `default`. -/
def checkLength (s : List Int) : Option validation.Error :=
  match s with
  | [] => none
  | [s0, s1] =>
    if s0 < 0 || s1 < 0 then
      some (validation.Error.msg "must be positive int(>=0)")
    else if s0 > s1 then
      some (validation.Error.msg "must be [min, max]")
    else none
  | _ => some (validation.Error.msg "must be empty or 2-ints")

/-- `ParseToml`, as a function of what `toml.DecodeFile` produced for the file: a decode
error is returned as it is, a decoded project is validated and returned only when
`Validate` gives `nil`. -/
def ParseToml (validate : ValidateProject → Option validation.Error)
    (decoded : Except validation.Error ValidateProject) :
    Except validation.Error ValidateProject :=
  match decoded with
  | Except.error err => Except.error err
  | Except.ok project =>
    match validate project with
    | some err => Except.error err
    | none => Except.ok project

/-- `ValidateProject.prepare`: the updated `*vs`, the validator path and the file mode. -/
def ValidateProject.prepare (vp : ValidateProject) (vs : ValidateStruct) (name : String) :
    ValidateStruct × String × Nat :=
  let vs := if vs.Name = "" then { vs with Name := name } else vs
  let vs := if vs.MethodName = "" then { vs with MethodName := vp.MethodName } else vs
  let vs := if vs.MethodName = "" then { vs with MethodName := "Validate" } else vs
  let validator_dir := if vs.Dir ≠ "" then vs.Dir else vs.Package
  let validator_filename :=
    if vs.FileName ≠ "" then vs.FileName else vs.Package ++ "_validator.go"
  let validator_path := validator_dir ++ "/" ++ validator_filename
  let filemode : Nat := if vs.FileMode ≠ 0 then (vs.FileMode % 2 ^ 32).toNat else 0o644
  (vs, validator_path, filemode)

/-- The condition of the second `if` in the loop of `prepareIsValidators`: the
disjunction of the 54 flags, in the order of the source. -/
def isRuleCondition (vp : ValidateProperty) : Bool :=
  vp.Rule.Is.Email ||
  vp.Rule.Is.EmailFormat ||
  vp.Rule.Is.URL ||
  vp.Rule.Is.RequestURL ||
  vp.Rule.Is.RequestURI ||
  vp.Rule.Is.Alpha ||
  vp.Rule.Is.Digit ||
  vp.Rule.Is.Alphanumeric ||
  vp.Rule.Is.UTFLetter ||
  vp.Rule.Is.UTFDigit ||
  vp.Rule.Is.UTFLetterNumeric ||
  vp.Rule.Is.UTFNumeric ||
  vp.Rule.Is.LowerCase ||
  vp.Rule.Is.UpperCase ||
  vp.Rule.Is.Hexadecimal ||
  vp.Rule.Is.HexColor ||
  vp.Rule.Is.RGBColor ||
  vp.Rule.Is.Int ||
  vp.Rule.Is.Float ||
  vp.Rule.Is.UUIDv3 ||
  vp.Rule.Is.UUIDv4 ||
  vp.Rule.Is.UUIDv5 ||
  vp.Rule.Is.UUID ||
  vp.Rule.Is.CreditCard ||
  vp.Rule.Is.ISBN10 ||
  vp.Rule.Is.ISBN13 ||
  vp.Rule.Is.ISBN ||
  vp.Rule.Is.JSON ||
  vp.Rule.Is.ASCII ||
  vp.Rule.Is.PrintableASCII ||
  vp.Rule.Is.Multibyte ||
  vp.Rule.Is.FullWidth ||
  vp.Rule.Is.HalfWidth ||
  vp.Rule.Is.VariableWidth ||
  vp.Rule.Is.Base64 ||
  vp.Rule.Is.DataURI ||
  vp.Rule.Is.E164 ||
  vp.Rule.Is.CountryCode2 ||
  vp.Rule.Is.CountryCode3 ||
  vp.Rule.Is.DialString ||
  vp.Rule.Is.MAC ||
  vp.Rule.Is.IP ||
  vp.Rule.Is.IPv4 ||
  vp.Rule.Is.IPv6 ||
  vp.Rule.Is.Subdomain ||
  vp.Rule.Is.Domain ||
  vp.Rule.Is.DNSName ||
  vp.Rule.Is.Host ||
  vp.Rule.Is.Port ||
  vp.Rule.Is.MongoID ||
  vp.Rule.Is.Latitude ||
  vp.Rule.Is.Longitude ||
  vp.Rule.Is.SSN ||
  vp.Rule.Is.Semver

/-- One iteration of the loop of `prepareIsValidators` on the pair
`(hasRegexp, hasIsValidator)`. -/
def prepareIsValidatorsStep (flags : Bool × Bool) (entry : String × ValidateProperty) :
    Bool × Bool :=
  let vp := entry.2
  let hasRegexp := if vp.Rule.Match ≠ "" then true else flags.1
  let hasIsValidator := if isRuleCondition vp then true else flags.2
  (hasRegexp, hasIsValidator)

/-- `ValidateProject.prepareIsValidators`: the updated `*vs`. The receiver is not used
(the loop variable shadows it). -/
def ValidateProject.prepareIsValidators (_vp : ValidateProject) (vs : ValidateStruct) :
    ValidateStruct :=
  let flags := vs.Properties.foldl prepareIsValidatorsStep (false, false)
  let vs := if flags.1 then { vs with Import := vs.Import ++ ["regexp"] } else vs
  let vs :=
    if flags.2 then
      { vs with Import := vs.Import ++ ["github.com/go-ozzo/ozzo-validation/v4/is"] }
    else vs
  vs

/-- `ValidateProperty.Validate`. -/
def ValidateProperty.Validate (vp : ValidateProperty) : Option validation.Error :=
  validation.ValidateStruct [
    ("Name", validation.Validate vp.Name [is.Alphanumeric]),
    ("Type", validation.Validate vp.«Type»
      [validation.RequiredString,
       validation.In ["int", "float", "string", "object", "array"]]),
    ("Length", validation.Validate vp.Rule.Length [validation.By checkLength]),
    ("RuneLength", validation.Validate vp.Rule.RuneLength [validation.By checkLength])]

/-- `ValidateStruct.Validate`. -/
def ValidateStruct.Validate (vs : ValidateStruct) : Option validation.Error :=
  validation.ValidateStruct [
    ("Name", validation.Validate vs.Name [is.Alphanumeric]),
    ("FileMode", validation.Validate vs.FileMode [validation.Min 0, validation.Max 0o777]),
    ("Properties", validation.ValidateMap vs.Properties [validation.RequiredMap]
      ValidateProperty.Validate)]

/-- `ValidateProject.Validate`. -/
def ValidateProject.Validate (vp : ValidateProject) : Option validation.Error :=
  validation.ValidateStruct [
    ("Type", validation.Validate vp.«Type»
      [validation.RequiredString, validation.In ["struct", "map"]]),
    ("MethodName", validation.Validate vp.MethodName [is.Alphanumeric]),
    ("Validators", validation.ValidateMap vp.Validators [validation.RequiredMap]
      ValidateStruct.Validate)]

/-- `isValidNumericList`. -/
def isValidNumericList (value : TypedList) : Bool :=
  if value.Int.length > 0 then true else value.Float.length > 0

/-- `isValidIntList`. -/
def isValidIntList (value : TypedList) : Bool :=
  value.Int.length > 0

/-- `isValidFloatList`. -/
def isValidFloatList (value : TypedList) : Bool :=
  value.Float.length > 0

/-- `isValidStringList`. -/
def isValidStringList (value : TypedList) : Bool :=
  value.String.length > 0

end generator

/-! ## The project without its nested rules

These four functions are not part of `generator.go`; they are used to state that
`Validate` does not look at the rules nested under `Each` and `Else`. -/

namespace generator

/-- The rule with its `Each` and `Else` lists emptied. -/
def ValidateRule.dropNested (r : ValidateRule) : ValidateRule :=
  { r with Each := [], Else := [] }

/-- The property with the `Each` and `Else` lists of its rule emptied. -/
def ValidateProperty.dropNested (vp : ValidateProperty) : ValidateProperty :=
  { vp with Rule := vp.Rule.dropNested }

/-- The struct with the `Each` and `Else` lists of every property emptied. -/
def ValidateStruct.dropNested (vs : ValidateStruct) : ValidateStruct :=
  { vs with Properties := vs.Properties.map (fun entry => (entry.1, entry.2.dropNested)) }

/-- The project with the `Each` and `Else` lists of every property emptied. -/
def ValidateProject.dropNested (vp : ValidateProject) : ValidateProject :=
  { vp with Validators := vp.Validators.map (fun entry => (entry.1, entry.2.dropNested)) }

end generator

/-! ## Example inputs -/

namespace generator

/-- A struct whose one property sets `Semver` and no other field of its rule. -/
def semverStruct : ValidateStruct :=
  { Package := "p",
    Properties :=
      [("version",
        { «Type» := "string",
          Rule := { Each := [], Else := [], Is := { Semver := true } } })] }

/-- A struct whose one property sets fields of `ValidateRule` other than the 54 flags, and
has a flag set only in rules nested under `Each` and `Else`. -/
def noFlagStruct : ValidateStruct :=
  { Package := "p",
    Properties :=
      [("tags",
        { Name := "Tags",
          «Type» := "array",
          Rule :=
            { In := { String := ["a"] },
              NotIn := { Int := [1] },
              Length := [1, 2],
              RuneLength := [1, 2],
              Match := "^a$",
              Date := "2006-01-02",
              Required := true,
              NotNil := true,
              Nil := true,
              NilOrNotEmpty := true,
              Empty := true,
              MultipleOf := [{ Int := [2] }],
              Each := [{ Each := [], Else := [], Is := { Email := true } }],
              Else := [{ Each := [], Else := [], Is := { URL := true } }] } })] }

/-- A struct that is valid except for its `FileMode`, `01000`. -/
def badModeStruct : ValidateStruct :=
  { Package := "person",
    FileMode := 0o1000,
    Properties := [("Name", { «Type» := "string", Rule := { Required := true, Each := [], Else := [] } })] }

/-- A project with `badModeStruct` as its only validator. -/
def badModeProject : ValidateProject :=
  { «Type» := "struct", Validators := [("Person", badModeStruct)] }

/-- A project whose one property has `Each = [{Length = [5, 2]}]` and nothing else
that `Validate` could object to. -/
def nestedLengthProject : ValidateProject :=
  { «Type» := "struct",
    Validators :=
      [("Person",
        { Package := "person",
          Properties :=
            [("Tags",
              { «Type» := "array",
                Rule := { Each := [{ Length := [5, 2], Each := [], Else := [] }],
                          Else := [] } })] })] }

/-- A project whose one property has `Length = [5, 2]` at its top level. -/
def badLengthProject : ValidateProject :=
  { «Type» := "struct",
    Validators :=
      [("Person",
        { Package := "person",
          Properties :=
            [("Tags",
              { «Type» := "array",
                Rule := { Length := [5, 2], Each := [], Else := [] } })] })] }

/-- A struct whose only non-empty `Match` patterns sit in rules nested under `Each` and
`Else` of its one property. -/
def nestedMatchStruct : ValidateStruct :=
  { Package := "p",
    Properties :=
      [("tags",
        { «Type» := "array",
          Rule :=
            { Each := [{ Match := "^a$", Each := [], Else := [] }],
              Else := [{ Match := "^b$", Each := [], Else := [] }] } })] }

end generator

/-! ## The command that runs the generator (`cmd/generate.go`) -/

namespace generator

/-- The `Run` function of `generateCmd`, up to its call of `Generate`: the result is
`Except.error err` when it calls `panic(err)` before `Generate` is reached and
`Except.ok vp` when it calls `vp.Generate()`. `decoded` is what `toml.DecodeFile` produced
for `args[0]`; `template` is the value of the `template` flag when `GetString` gave no
error. -/
def generateCmdRun (decoded : Except validation.Error ValidateProject)
    (template : Option String) : Except validation.Error ValidateProject :=
  match ParseToml ValidateProject.Validate decoded with
  | Except.error err => Except.error err
  | Except.ok vp =>
    match template with
    | some tmpl => Except.ok { vp with Template := tmpl }
    | none => Except.ok vp

end generator

/-! ## Example inputs, continued -/

namespace generator

/-- The validator `Person` of the scenario: `Package = "person"`, the properties `Name`
(a required string) and `Age` (an int with `Length = [0, 150]`), nothing else set. -/
def personStruct : ValidateStruct :=
  { Package := "person",
    Properties :=
      [("Name", { «Type» := "string", Rule := { Required := true, Each := [], Else := [] } }),
       ("Age", { «Type» := "int", Rule := { Length := [0, 150], Each := [], Else := [] } })] }

/-- The project of the scenario: `Type = "struct"`, no method name, the one validator
`personStruct` under the key "Person". -/
def personProject : ValidateProject :=
  { «Type» := "struct", Validators := [("Person", personStruct)] }

/-- A struct that already lists "regexp" and has a property with a `Match` pattern. -/
def regexpListedStruct : ValidateStruct :=
  { Package := "p",
    Import := ["regexp"],
    Properties :=
      [("code", { «Type» := "string", Rule := { Match := "^[A-Z]+$", Each := [], Else := [] } })] }

/-- A struct with no imports and a property with a `Match` pattern. -/
def matchStruct : ValidateStruct :=
  { Package := "p",
    Properties :=
      [("code", { «Type» := "string", Rule := { Match := "^[A-Z]+$", Each := [], Else := [] } })] }

/-- A struct with no imports and two properties that set several format predicates,
`Email` among them. -/
def emailStruct : ValidateStruct :=
  { Package := "p",
    Properties :=
      [("mail",
        { «Type» := "string",
          Rule := { Each := [], Else := [], Is := { Email := true, LowerCase := true } } }),
       ("site",
        { «Type» := "string",
          Rule := { Each := [], Else := [], Is := { URL := true, ASCII := true } } })] }

/-- The properties of `emailAndMatchStruct`, visited in the other order. -/
def swappedProperties : List (String × ValidateProperty) :=
  [("code", { «Type» := "string", Rule := { Match := "^[A-Z]+$", Each := [], Else := [] } }),
   ("mail", { «Type» := "string", Rule := { Each := [], Else := [], Is := { Email := true } } })]

/-- A struct with one property that sets `Email` and one with a `Match` pattern. -/
def emailAndMatchStruct : ValidateStruct :=
  { Package := "p",
    Import := ["fmt"],
    Properties :=
      [("mail", { «Type» := "string", Rule := { Each := [], Else := [], Is := { Email := true } } }),
       ("code", { «Type» := "string", Rule := { Match := "^[A-Z]+$", Each := [], Else := [] } })] }

end generator

/-! ## Lemmas on the validation library -/

namespace validation

theorem ValidateStruct_eq_none_iff (fields : List (String × Option Error)) :
    ValidateStruct fields = none ↔ ∀ f ∈ fields, f.2 = none := by
  unfold ValidateStruct
  induction fields with
  | nil => simp
  | cons f fields ih =>
    cases h : f.2 <;> simp_all [List.filterMap_cons]

theorem validateMap_eq_none_iff {β : Type} (validate : β → Option Error)
    (m : List (String × β)) :
    validateMap validate m = none ↔ ∀ kv ∈ m, validate kv.2 = none := by
  unfold validateMap
  induction m with
  | nil => simp
  | cons kv m ih =>
    cases h : validate kv.2 <;> simp_all [List.filterMap_cons]

theorem ValidateMap_eq_none_iff {β : Type} (value : List (String × β))
    (rules : List (List (String × β) → Option Error)) (validate : β → Option Error) :
    ValidateMap value rules validate = none ↔
      Validate value rules = none ∧ ∀ kv ∈ value, validate kv.2 = none := by
  unfold ValidateMap
  cases h : Validate value rules with
  | none => simp [validateMap_eq_none_iff]
  | some e => simp

theorem validateMap_map_congr {β : Type} (validate : β → Option Error) (g : β → β)
    (hg : ∀ b, validate (g b) = validate b) (m : List (String × β)) :
    validateMap validate (m.map (fun entry => (entry.1, g entry.2))) =
      validateMap validate m := by
  have hlist : (m.map (fun entry => (entry.1, g entry.2))).filterMap
        (fun kv => (validate kv.2).map (fun e => (kv.1, e))) =
      m.filterMap (fun kv => (validate kv.2).map (fun e => (kv.1, e))) := by
    induction m with
    | nil => rfl
    | cons entry m ih =>
      simp only [List.map_cons, List.filterMap_cons, hg, ih]
  unfold validateMap
  simp only [hlist]

theorem ValidateMap_map_congr {β : Type} (validate : β → Option Error) (g : β → β)
    (hg : ∀ b, validate (g b) = validate b) (m : List (String × β)) :
    ValidateMap (m.map (fun entry => (entry.1, g entry.2))) [RequiredMap] validate =
      ValidateMap m [RequiredMap] validate := by
  unfold ValidateMap
  rw [validateMap_map_congr validate g hg]
  cases m <;> rfl

theorem exists_eq_some_of_ne_none {o : Option Error} (h : o ≠ none) :
    ∃ err, o = some err := by
  cases o with
  | none => exact absurd rfl h
  | some e => exact ⟨e, rfl⟩

end validation

/-! ## Lemmas on `generator.go` -/

namespace generator

/-- The loop of `prepareIsValidators` computes two "exists" flags. -/
theorem foldl_prepareIsValidatorsStep (props : List (String × ValidateProperty))
    (flags : Bool × Bool) :
    props.foldl prepareIsValidatorsStep flags =
      (flags.1 || props.any (fun entry => decide (entry.2.Rule.Match ≠ "")),
       flags.2 || props.any (fun entry => isRuleCondition entry.2)) := by
  induction props generalizing flags with
  | nil => simp
  | cons entry props ih =>
    rw [List.foldl_cons, ih]
    by_cases hm : entry.2.Rule.Match = "" <;>
      cases hc : isRuleCondition entry.2 <;>
        simp [prepareIsValidatorsStep, hm, hc]

/-- The import list after `prepareIsValidators`, in closed form. -/
theorem prepareIsValidators_Import_eq (vp : ValidateProject) (vs : ValidateStruct) :
    (vp.prepareIsValidators vs).Import =
      vs.Import
        ++ (if vs.Properties.any (fun entry => decide (entry.2.Rule.Match ≠ ""))
            then ["regexp"] else [])
        ++ (if vs.Properties.any (fun entry => isRuleCondition entry.2)
            then ["github.com/go-ozzo/ozzo-validation/v4/is"] else []) := by
  unfold ValidateProject.prepareIsValidators
  rw [foldl_prepareIsValidatorsStep]
  cases vs.Properties.any (fun entry => decide (entry.2.Rule.Match ≠ "")) <;>
    cases vs.Properties.any (fun entry => isRuleCondition entry.2) <;> simp

/-- `ValidateProperty.Validate` reads `Name`, `Type`, `Length` and `RuneLength` only. -/
theorem ValidateProperty_Validate_dropNested (vp : ValidateProperty) :
    vp.dropNested.Validate = vp.Validate := rfl

theorem ValidateStruct_Validate_dropNested (vs : ValidateStruct) :
    vs.dropNested.Validate = vs.Validate := by
  unfold ValidateStruct.Validate
  show validation.ValidateStruct [_, _, ("Properties", validation.ValidateMap
    (vs.Properties.map (fun entry => (entry.1, entry.2.dropNested)))
    [validation.RequiredMap] ValidateProperty.Validate)] = _
  rw [validation.ValidateMap_map_congr ValidateProperty.Validate
    ValidateProperty.dropNested ValidateProperty_Validate_dropNested]
  rfl

theorem ValidateProject_Validate_dropNested (vp : ValidateProject) :
    vp.dropNested.Validate = vp.Validate := by
  unfold ValidateProject.Validate
  show validation.ValidateStruct [_, _, ("Validators", validation.ValidateMap
    (vp.Validators.map (fun entry => (entry.1, entry.2.dropNested)))
    [validation.RequiredMap] ValidateStruct.Validate)] = _
  rw [validation.ValidateMap_map_congr ValidateStruct.Validate
    ValidateStruct.dropNested ValidateStruct_Validate_dropNested]
  rfl

/-- A property whose own `Length` or `RuneLength` is rejected by `checkLength` is
rejected. -/
theorem ValidateProperty_Validate_ne_none_of_checkLength (vp : ValidateProperty)
    (h : checkLength vp.Rule.Length ≠ none ∨ checkLength vp.Rule.RuneLength ≠ none) :
    vp.Validate ≠ none := by
  intro hnone
  unfold ValidateProperty.Validate at hnone
  rw [validation.ValidateStruct_eq_none_iff] at hnone
  have hl := hnone ("Length",
    validation.Validate vp.Rule.Length [validation.By checkLength]) (by simp)
  have hr := hnone ("RuneLength",
    validation.Validate vp.Rule.RuneLength [validation.By checkLength]) (by simp)
  simp only [validation.Validate, validation.By] at hl hr
  rcases h with h | h
  · apply h
    cases hc : checkLength vp.Rule.Length with
    | none => rfl
    | some e => simp [hc] at hl
  · apply h
    cases hc : checkLength vp.Rule.RuneLength with
    | none => rfl
    | some e => simp [hc] at hr

/-- A struct is rejected when one of its properties is. -/
theorem ValidateStruct_Validate_ne_none_of_property (vs : ValidateStruct)
    (entry : String × ValidateProperty) (hmem : entry ∈ vs.Properties)
    (h : entry.2.Validate ≠ none) : vs.Validate ≠ none := by
  intro hnone
  unfold ValidateStruct.Validate at hnone
  rw [validation.ValidateStruct_eq_none_iff] at hnone
  have hmap := hnone ("Properties",
    validation.ValidateMap vs.Properties [validation.RequiredMap] ValidateProperty.Validate)
    (by simp)
  rw [validation.ValidateMap_eq_none_iff] at hmap
  exact h (hmap.2 entry hmem)

/-- A project is rejected when one of its validators is. -/
theorem ValidateProject_Validate_ne_none_of_validator (vp : ValidateProject)
    (entry : String × ValidateStruct) (hmem : entry ∈ vp.Validators)
    (h : entry.2.Validate ≠ none) : vp.Validate ≠ none := by
  intro hnone
  unfold ValidateProject.Validate at hnone
  rw [validation.ValidateStruct_eq_none_iff] at hnone
  have hmap := hnone ("Validators",
    validation.ValidateMap vp.Validators [validation.RequiredMap] ValidateStruct.Validate)
    (by simp)
  rw [validation.ValidateMap_eq_none_iff] at hmap
  exact h (hmap.2 entry hmem)

/-- `is.Alphanumeric` accepts the empty string and the strings of letters and digits. -/
theorem Alphanumeric_eq_none_iff (value : String) :
    is.Alphanumeric value = none ↔
      value = "" ∨ ∀ c ∈ value.data, is.isAlphanumericChar c = true := by
  unfold is.Alphanumeric is.IsAlphanumeric
  by_cases h : value = ""
  · simp [h]
  · by_cases hall : value.data.all is.isAlphanumericChar = true
    · have hchars : ∀ c ∈ value.data, is.isAlphanumericChar c = true := by
        simpa using hall
      rw [if_neg h, if_pos hall]
      exact ⟨fun _ => Or.inr hchars, fun _ => rfl⟩
    · have hchars : ¬ ∀ c ∈ value.data, is.isAlphanumericChar c = true := by
        simpa using hall
      rw [if_neg h, if_neg hall]
      constructor
      · intro hsome
        cases hsome
      · rintro (hempty | hc)
        · exact absurd hempty h
        · exact absurd hc hchars

theorem Validate_Alphanumeric_eq_none_iff (value : String) :
    validation.Validate value [is.Alphanumeric] = none ↔
      value = "" ∨ ∀ c ∈ value.data, is.isAlphanumericChar c = true := by
  rw [← Alphanumeric_eq_none_iff]
  unfold validation.Validate
  cases is.Alphanumeric value <;> simp [validation.Validate]

/-- `Required` followed by `In`: the value is one of the elements and not empty. -/
theorem Validate_Required_In_eq_none_iff (elements : List String) (value : String) :
    validation.Validate value [validation.RequiredString, validation.In elements] = none ↔
      value ≠ "" ∧ value ∈ elements := by
  by_cases h : value = ""
  · simp [validation.Validate, validation.RequiredString, h]
  · by_cases hmem : value ∈ elements
    · simp [validation.Validate, validation.RequiredString, validation.In, h, hmem]
    · simp [validation.Validate, validation.RequiredString, validation.In, h, hmem]

/-- `Min(0)` followed by `Max(0777)`: the value lies in `[0, 0777]`. -/
theorem Validate_Min_Max_eq_none_iff (value : Int) :
    validation.Validate value [validation.Min 0, validation.Max 0o777] = none ↔
      0 ≤ value ∧ value ≤ 0o777 := by
  simp only [validation.Validate, validation.Min, validation.Max]
  split_ifs <;> simp <;> omega

theorem Validate_By_checkLength_eq_none_iff (value : List Int) :
    validation.Validate value [validation.By checkLength] = none ↔
      checkLength value = none := by
  simp only [validation.Validate, validation.By]
  cases checkLength value <;> simp

theorem Validate_RequiredMap_eq_none_iff {β : Type} (value : List (String × β)) :
    validation.Validate value [validation.RequiredMap] = none ↔ value ≠ [] := by
  cases value <;> simp [validation.Validate, validation.RequiredMap]

/-- What `ValidateProperty.Validate` accepts. -/
theorem ValidateProperty_Validate_eq_none_iff (vp : ValidateProperty) :
    vp.Validate = none ↔
      (vp.Name = "" ∨ ∀ c ∈ vp.Name.data, is.isAlphanumericChar c = true) ∧
      (vp.«Type» ≠ "" ∧ vp.«Type» ∈ ["int", "float", "string", "object", "array"]) ∧
      checkLength vp.Rule.Length = none ∧
      checkLength vp.Rule.RuneLength = none := by
  unfold ValidateProperty.Validate
  rw [validation.ValidateStruct_eq_none_iff]
  simp only [List.mem_cons, List.mem_singleton, forall_eq_or_imp, forall_eq,
    List.not_mem_nil, false_imp_iff, implies_true, and_true, or_false,
    Validate_Alphanumeric_eq_none_iff, Validate_Required_In_eq_none_iff,
    Validate_By_checkLength_eq_none_iff]

/-- What `ValidateStruct.Validate` accepts. -/
theorem ValidateStruct_Validate_eq_none_iff (vs : ValidateStruct) :
    vs.Validate = none ↔
      (vs.Name = "" ∨ ∀ c ∈ vs.Name.data, is.isAlphanumericChar c = true) ∧
      (0 ≤ vs.FileMode ∧ vs.FileMode ≤ 0o777) ∧
      vs.Properties ≠ [] ∧
      ∀ property ∈ vs.Properties, property.2.Validate = none := by
  unfold ValidateStruct.Validate
  rw [validation.ValidateStruct_eq_none_iff]
  simp only [List.mem_cons, List.mem_singleton, forall_eq_or_imp, forall_eq,
    List.not_mem_nil, false_imp_iff, implies_true, and_true, or_false,
    Validate_Alphanumeric_eq_none_iff, Validate_Min_Max_eq_none_iff,
    validation.ValidateMap_eq_none_iff, Validate_RequiredMap_eq_none_iff]

/-- What `ValidateProject.Validate` accepts. -/
theorem ValidateProject_Validate_eq_none_iff (vp : ValidateProject) :
    vp.Validate = none ↔
      (vp.«Type» ≠ "" ∧ vp.«Type» ∈ ["struct", "map"]) ∧
      (vp.MethodName = "" ∨ ∀ c ∈ vp.MethodName.data, is.isAlphanumericChar c = true) ∧
      vp.Validators ≠ [] ∧
      ∀ validator ∈ vp.Validators, validator.2.Validate = none := by
  unfold ValidateProject.Validate
  rw [validation.ValidateStruct_eq_none_iff]
  simp only [List.mem_cons, List.mem_singleton, forall_eq_or_imp, forall_eq,
    List.not_mem_nil, false_imp_iff, implies_true, and_true, or_false,
    Validate_Alphanumeric_eq_none_iff, Validate_Required_In_eq_none_iff,
    validation.ValidateMap_eq_none_iff, Validate_RequiredMap_eq_none_iff]

/-- `prepareIsValidators` writes the import list only. -/
theorem prepareIsValidators_Properties_eq (vp : ValidateProject) (vs : ValidateStruct) :
    (vp.prepareIsValidators vs).Properties = vs.Properties := by
  unfold ValidateProject.prepareIsValidators
  generalize vs.Properties.foldl prepareIsValidatorsStep (false, false) = flags
  obtain ⟨hasRegexp, hasIsValidator⟩ := flags
  cases hasRegexp <;> cases hasIsValidator <;> rfl

/-- The permission returned by `prepare`, in closed form. -/
theorem prepare_permission_eq (vp : ValidateProject) (vs : ValidateStruct) (key : String) :
    (vp.prepare vs key).2.2 =
      (if vs.FileMode = 0 then 0o644 else (vs.FileMode % 2 ^ 32).toNat) := by
  unfold ValidateProject.prepare
  by_cases hn : vs.Name = "" <;> by_cases h1 : vs.MethodName = "" <;>
    by_cases h2 : vp.MethodName = "" <;> by_cases h3 : vs.FileMode = 0 <;>
      simp [hn, h1, h2, h3]

/-- `List.any` does not depend on the order of the list. -/
theorem any_eq_of_perm {α : Type} (p : α → Bool) {l₁ l₂ : List α} (h : l₁.Perm l₂) :
    l₁.any p = l₂.any p := by
  rw [Bool.eq_iff_iff, List.any_eq_true, List.any_eq_true]
  constructor
  · rintro ⟨a, ha, hp⟩
    exact ⟨a, h.mem_iff.mp ha, hp⟩
  · rintro ⟨a, ha, hp⟩
    exact ⟨a, h.mem_iff.mpr ha, hp⟩

/-! ## Claims -/

/-- C1: `checkLength s` returns no error if and only if `s` is empty or `s` has exactly two
elements `[min, max]` with `0 ≤ min ≤ max`; every other element count, a negative bound or
`min > max` gives an error. -/
theorem checkLength_eq_none_iff (s : List Int) :
    checkLength s = none ↔
      s = [] ∨ ∃ min max : Int, s = [min, max] ∧ 0 ≤ min ∧ min ≤ max := by
  match s with
  | [] => simp [checkLength]
  | [a] => simp [checkLength]
  | [a, b] =>
    simp only [checkLength]
    constructor
    · intro h
      right
      refine ⟨a, b, rfl, ?_⟩
      by_contra hc
      split_ifs at h with h1 h2
      · simp only [Bool.or_eq_true, decide_eq_true_eq] at h1
        omega
    · rintro (h | ⟨mn, mx, h, h0, h1⟩)
      · simp at h
      · simp only [List.cons.injEq, and_true] at h
        obtain ⟨rfl, rfl⟩ := h
        have h2 : ¬ (a < 0 ∨ b < 0) := by omega
        have h3 : ¬ (a > b) := by omega
        simp [h2, h3]
  | a :: b :: c :: t => simp [checkLength]

/-- C2: `prepareIsValidators` keeps the old import list as a prefix and appends "regexp"
to it if and only if some entry of `vs.Properties` has a non-empty `Match` at its top
level; when every top-level `Match` is empty nothing nested under `Each` or `Else` makes
it append "regexp". -/
theorem prepareIsValidators_appends_regexp_iff (vp : ValidateProject) (vs : ValidateStruct) :
    (vp.prepareIsValidators vs).Import.take vs.Import.length = vs.Import ∧
    ("regexp" ∈ (vp.prepareIsValidators vs).Import.drop vs.Import.length ↔
      ∃ entry ∈ vs.Properties, entry.2.Rule.Match ≠ "") ∧
    ((∀ entry ∈ vs.Properties, entry.2.Rule.Match = "") →
      "regexp" ∉ (vp.prepareIsValidators vs).Import.drop vs.Import.length) := by
  have key : ("regexp" ∈ (vp.prepareIsValidators vs).Import.drop vs.Import.length ↔
      ∃ entry ∈ vs.Properties, entry.2.Rule.Match ≠ "") := by
    have hex : (∃ entry ∈ vs.Properties, entry.2.Rule.Match ≠ "") ↔
        vs.Properties.any (fun entry => decide (entry.2.Rule.Match ≠ "")) = true := by
      simp
    rw [hex, prepareIsValidators_Import_eq, List.append_assoc, List.drop_left]
    cases vs.Properties.any (fun entry => decide (entry.2.Rule.Match ≠ "")) <;>
      cases vs.Properties.any (fun entry => isRuleCondition entry.2) <;> simp
  refine ⟨?_, key, ?_⟩
  · rw [prepareIsValidators_Import_eq, List.append_assoc, List.take_left]
  · intro hall hin
    obtain ⟨entry, hmem, hne⟩ := key.mp hin
    exact hne (hall entry hmem)

/-- C2, at a struct whose only non-empty `Match` sits in rules nested under `Each` and
`Else`: "regexp" is not appended. -/
theorem prepareIsValidators_appends_regexp_iff_witness :
    "regexp" ∉ ((ValidateProject.prepareIsValidators {} nestedMatchStruct).Import.drop
      nestedMatchStruct.Import.length) :=
  (prepareIsValidators_appends_regexp_iff {} nestedMatchStruct).2.2 (by decide)

/-- C3: `prepareIsValidators` appends "github.com/go-ozzo/ozzo-validation/v4/is" to
the import list if and only if some entry of `vs.Properties` has at least one of the 54
boolean fields of `ValidateIsRule` set at its top level; no other field of the rule takes
part in the decision. -/
theorem prepareIsValidators_appends_is_iff (vp : ValidateProject) (vs : ValidateStruct) :
    (vp.prepareIsValidators vs).Import.take vs.Import.length = vs.Import ∧
    ("github.com/go-ozzo/ozzo-validation/v4/is" ∈
        (vp.prepareIsValidators vs).Import.drop vs.Import.length ↔
      ∃ entry ∈ vs.Properties,
          entry.2.Rule.Is.Email = true ∨
          entry.2.Rule.Is.EmailFormat = true ∨
          entry.2.Rule.Is.URL = true ∨
          entry.2.Rule.Is.RequestURL = true ∨
          entry.2.Rule.Is.RequestURI = true ∨
          entry.2.Rule.Is.Alpha = true ∨
          entry.2.Rule.Is.Digit = true ∨
          entry.2.Rule.Is.Alphanumeric = true ∨
          entry.2.Rule.Is.UTFLetter = true ∨
          entry.2.Rule.Is.UTFDigit = true ∨
          entry.2.Rule.Is.UTFLetterNumeric = true ∨
          entry.2.Rule.Is.UTFNumeric = true ∨
          entry.2.Rule.Is.LowerCase = true ∨
          entry.2.Rule.Is.UpperCase = true ∨
          entry.2.Rule.Is.Hexadecimal = true ∨
          entry.2.Rule.Is.HexColor = true ∨
          entry.2.Rule.Is.RGBColor = true ∨
          entry.2.Rule.Is.Int = true ∨
          entry.2.Rule.Is.Float = true ∨
          entry.2.Rule.Is.UUIDv3 = true ∨
          entry.2.Rule.Is.UUIDv4 = true ∨
          entry.2.Rule.Is.UUIDv5 = true ∨
          entry.2.Rule.Is.UUID = true ∨
          entry.2.Rule.Is.CreditCard = true ∨
          entry.2.Rule.Is.ISBN10 = true ∨
          entry.2.Rule.Is.ISBN13 = true ∨
          entry.2.Rule.Is.ISBN = true ∨
          entry.2.Rule.Is.JSON = true ∨
          entry.2.Rule.Is.ASCII = true ∨
          entry.2.Rule.Is.PrintableASCII = true ∨
          entry.2.Rule.Is.Multibyte = true ∨
          entry.2.Rule.Is.FullWidth = true ∨
          entry.2.Rule.Is.HalfWidth = true ∨
          entry.2.Rule.Is.VariableWidth = true ∨
          entry.2.Rule.Is.Base64 = true ∨
          entry.2.Rule.Is.DataURI = true ∨
          entry.2.Rule.Is.E164 = true ∨
          entry.2.Rule.Is.CountryCode2 = true ∨
          entry.2.Rule.Is.CountryCode3 = true ∨
          entry.2.Rule.Is.DialString = true ∨
          entry.2.Rule.Is.MAC = true ∨
          entry.2.Rule.Is.IP = true ∨
          entry.2.Rule.Is.IPv4 = true ∨
          entry.2.Rule.Is.IPv6 = true ∨
          entry.2.Rule.Is.Subdomain = true ∨
          entry.2.Rule.Is.Domain = true ∨
          entry.2.Rule.Is.DNSName = true ∨
          entry.2.Rule.Is.Host = true ∨
          entry.2.Rule.Is.Port = true ∨
          entry.2.Rule.Is.MongoID = true ∨
          entry.2.Rule.Is.Latitude = true ∨
          entry.2.Rule.Is.Longitude = true ∨
          entry.2.Rule.Is.SSN = true ∨
          entry.2.Rule.Is.Semver = true) := by
  constructor
  · rw [prepareIsValidators_Import_eq, List.append_assoc, List.take_left]
  · have hcond : ∀ entry : String × ValidateProperty,
        (entry.2.Rule.Is.Email = true ∨
          entry.2.Rule.Is.EmailFormat = true ∨
          entry.2.Rule.Is.URL = true ∨
          entry.2.Rule.Is.RequestURL = true ∨
          entry.2.Rule.Is.RequestURI = true ∨
          entry.2.Rule.Is.Alpha = true ∨
          entry.2.Rule.Is.Digit = true ∨
          entry.2.Rule.Is.Alphanumeric = true ∨
          entry.2.Rule.Is.UTFLetter = true ∨
          entry.2.Rule.Is.UTFDigit = true ∨
          entry.2.Rule.Is.UTFLetterNumeric = true ∨
          entry.2.Rule.Is.UTFNumeric = true ∨
          entry.2.Rule.Is.LowerCase = true ∨
          entry.2.Rule.Is.UpperCase = true ∨
          entry.2.Rule.Is.Hexadecimal = true ∨
          entry.2.Rule.Is.HexColor = true ∨
          entry.2.Rule.Is.RGBColor = true ∨
          entry.2.Rule.Is.Int = true ∨
          entry.2.Rule.Is.Float = true ∨
          entry.2.Rule.Is.UUIDv3 = true ∨
          entry.2.Rule.Is.UUIDv4 = true ∨
          entry.2.Rule.Is.UUIDv5 = true ∨
          entry.2.Rule.Is.UUID = true ∨
          entry.2.Rule.Is.CreditCard = true ∨
          entry.2.Rule.Is.ISBN10 = true ∨
          entry.2.Rule.Is.ISBN13 = true ∨
          entry.2.Rule.Is.ISBN = true ∨
          entry.2.Rule.Is.JSON = true ∨
          entry.2.Rule.Is.ASCII = true ∨
          entry.2.Rule.Is.PrintableASCII = true ∨
          entry.2.Rule.Is.Multibyte = true ∨
          entry.2.Rule.Is.FullWidth = true ∨
          entry.2.Rule.Is.HalfWidth = true ∨
          entry.2.Rule.Is.VariableWidth = true ∨
          entry.2.Rule.Is.Base64 = true ∨
          entry.2.Rule.Is.DataURI = true ∨
          entry.2.Rule.Is.E164 = true ∨
          entry.2.Rule.Is.CountryCode2 = true ∨
          entry.2.Rule.Is.CountryCode3 = true ∨
          entry.2.Rule.Is.DialString = true ∨
          entry.2.Rule.Is.MAC = true ∨
          entry.2.Rule.Is.IP = true ∨
          entry.2.Rule.Is.IPv4 = true ∨
          entry.2.Rule.Is.IPv6 = true ∨
          entry.2.Rule.Is.Subdomain = true ∨
          entry.2.Rule.Is.Domain = true ∨
          entry.2.Rule.Is.DNSName = true ∨
          entry.2.Rule.Is.Host = true ∨
          entry.2.Rule.Is.Port = true ∨
          entry.2.Rule.Is.MongoID = true ∨
          entry.2.Rule.Is.Latitude = true ∨
          entry.2.Rule.Is.Longitude = true ∨
          entry.2.Rule.Is.SSN = true ∨
          entry.2.Rule.Is.Semver = true) ↔ isRuleCondition entry.2 = true := by
      intro entry
      simp only [isRuleCondition, Bool.or_eq_true, or_assoc]
    simp only [hcond]
    rw [prepareIsValidators_Import_eq, List.append_assoc, List.drop_left]
    have hex : (∃ entry ∈ vs.Properties, isRuleCondition entry.2 = true) ↔
        vs.Properties.any (fun entry => isRuleCondition entry.2) = true := by
      simp
    rw [hex]
    cases vs.Properties.any (fun entry => decide (entry.2.Rule.Match ≠ "")) <;>
      cases vs.Properties.any (fun entry => isRuleCondition entry.2) <;> simp

/-- C3, at a struct whose only flag is `Semver` (the reference is appended) and at a
struct that sets every other rule field and has flags only under `Each` and `Else` (it is
not appended). -/
theorem prepareIsValidators_appends_is_iff_witness :
    "github.com/go-ozzo/ozzo-validation/v4/is" ∈
        (ValidateProject.prepareIsValidators {} semverStruct).Import.drop
          semverStruct.Import.length ∧
      "github.com/go-ozzo/ozzo-validation/v4/is" ∉
        (ValidateProject.prepareIsValidators {} noFlagStruct).Import.drop
          noFlagStruct.Import.length :=
  ⟨(prepareIsValidators_appends_is_iff {} semverStruct).2.mpr (by decide),
   fun hmem => absurd ((prepareIsValidators_appends_is_iff {} noFlagStruct).2.mp hmem)
    (by decide)⟩

/-- C4: after `prepare` the method name is the first non-empty of the original
`vs.MethodName`, `vp.MethodName` and the literal "Validate"; it is never empty. -/
theorem prepare_MethodName_first_nonempty (vp : ValidateProject) (vs : ValidateStruct)
    (key : String) :
    [vs.MethodName, vp.MethodName, "Validate"].find? (fun m => decide (m ≠ "")) =
        some (vp.prepare vs key).1.MethodName ∧
      (vp.prepare vs key).1.MethodName ≠ "" := by
  unfold ValidateProject.prepare
  by_cases hn : vs.Name = "" <;> by_cases h1 : vs.MethodName = "" <;>
    by_cases h2 : vp.MethodName = "" <;>
      simp [hn, h1, h2, List.find?]

/-- C5: after `prepare` the name is the original `vs.Name` when that was non-empty and the
map key otherwise. -/
theorem prepare_Name (vp : ValidateProject) (vs : ValidateStruct) (key : String) :
    (vp.prepare vs key).1.Name = if vs.Name ≠ "" then vs.Name else key := by
  unfold ValidateProject.prepare
  by_cases hn : vs.Name = "" <;> by_cases h1 : vs.MethodName = "" <;>
    by_cases h2 : vp.MethodName = "" <;>
      simp [hn, h1, h2]

/-- C6: the path returned by `prepare` is `D ++ "/" ++ F` where `D` is `vs.Dir` if
non-empty and `vs.Package` otherwise, and `F` is `vs.FileName` if non-empty and
`vs.Package ++ "_validator.go"` otherwise; with `Package`, `Dir` and `FileName` all empty
it is "/_validator.go". -/
theorem prepare_path (vp : ValidateProject) (vs : ValidateStruct) (key : String) :
    (vp.prepare vs key).2.1 =
        (if vs.Dir ≠ "" then vs.Dir else vs.Package) ++ "/" ++
          (if vs.FileName ≠ "" then vs.FileName else vs.Package ++ "_validator.go") ∧
      (vs.Package = "" → vs.Dir = "" → vs.FileName = "" →
        (vp.prepare vs key).2.1 = "/_validator.go") := by
  have hpath : (vp.prepare vs key).2.1 =
      (if vs.Dir ≠ "" then vs.Dir else vs.Package) ++ "/" ++
        (if vs.FileName ≠ "" then vs.FileName else vs.Package ++ "_validator.go") := by
    unfold ValidateProject.prepare
    by_cases hn : vs.Name = "" <;> by_cases h1 : vs.MethodName = "" <;>
      by_cases h2 : vp.MethodName = "" <;>
        simp [hn, h1, h2]
  refine ⟨hpath, ?_⟩
  intro hp hd hf
  rw [hpath, hp, hd, hf]
  decide

/-- C6, at a struct with only `Package` set and at the empty struct. -/
theorem prepare_path_witness :
    (ValidateProject.prepare {} { Package := "person" } "Person").2.1 =
        "person/person_validator.go" ∧
      (ValidateProject.prepare {} {} "Person").2.1 = "/_validator.go" :=
  ⟨(prepare_path {} { Package := "person" } "Person").1.trans (by decide),
   (prepare_path {} {} "Person").2 rfl rfl rfl⟩

/-- C7, as stated, fails at `FileMode = -1`: the mode is non-zero, and the permission
returned is `fs.FileMode(-1) = 4294967295`, which is not `-1`. -/
theorem prepare_filemode_counterexample :
    ({ FileMode := -1 } : ValidateStruct).FileMode ≠ 0 ∧
      (ValidateProject.prepare {} { FileMode := -1 } "Person").2.2 = 4294967295 ∧
      ((ValidateProject.prepare {} { FileMode := -1 } "Person").2.2 : Int) ≠
        ({ FileMode := -1 } : ValidateStruct).FileMode := by
  decide

/-- C7, amended: the permission returned by `prepare` is `0644` when `vs.FileMode` is 0
and, for every other `vs.FileMode`, the converted value `fs.FileMode(vs.FileMode)`, which
is `vs.FileMode` reduced modulo `2 ^ 32`; so it equals `vs.FileMode` itself when
`0 < vs.FileMode < 2 ^ 32`. -/
theorem prepare_filemode (vp : ValidateProject) (vs : ValidateStruct) (key : String) :
    (vs.FileMode = 0 → (vp.prepare vs key).2.2 = 0o644) ∧
      (vs.FileMode ≠ 0 → ((vp.prepare vs key).2.2 : Int) = vs.FileMode % 2 ^ 32) ∧
      (vs.FileMode ≠ 0 → 0 ≤ vs.FileMode → vs.FileMode < 2 ^ 32 →
        ((vp.prepare vs key).2.2 : Int) = vs.FileMode) := by
  have hmode := prepare_permission_eq vp vs key
  have hwrap : vs.FileMode ≠ 0 →
      ((vp.prepare vs key).2.2 : Int) = vs.FileMode % 2 ^ 32 := by
    intro hne
    rw [hmode, if_neg hne]
    exact Int.toNat_of_nonneg (Int.emod_nonneg _ (by decide))
  refine ⟨?_, hwrap, ?_⟩
  · intro h0
    rw [hmode, if_pos h0]
  · intro hne hlo hhi
    rw [hwrap hne, Int.emod_eq_of_lt hlo hhi]

/-- C7, amended, at `FileMode = 0`, at `FileMode = -420` (reduced modulo `2 ^ 32`) and at
`FileMode = 0600`. -/
theorem prepare_filemode_witness :
    (ValidateProject.prepare {} { FileMode := 0 } "Person").2.2 = 0o644 ∧
      ((ValidateProject.prepare {} { FileMode := -420 } "Person").2.2 : Int) = 4294966876 ∧
      ((ValidateProject.prepare {} { FileMode := 0o600 } "Person").2.2 : Int) = 0o600 :=
  ⟨(prepare_filemode {} { FileMode := 0 } "Person").1 rfl,
   ((prepare_filemode {} { FileMode := -420 } "Person").2.1 (by decide)).trans (by decide),
   (prepare_filemode {} { FileMode := 0o600 } "Person").2.2 (by decide) (by decide)
      (by decide)⟩

/-- C8: `prepare` leaves `Name` alone when it was non-empty, leaves `MethodName` alone when
it was non-empty, and never changes `Package`, `Dir`, `FileName`, `FileMode`, the import
list or `Properties`. -/
theorem prepare_frame (vp : ValidateProject) (vs : ValidateStruct) (key : String) :
    (vs.Name ≠ "" → (vp.prepare vs key).1.Name = vs.Name) ∧
      (vs.MethodName ≠ "" → (vp.prepare vs key).1.MethodName = vs.MethodName) ∧
      (vp.prepare vs key).1.Package = vs.Package ∧
      (vp.prepare vs key).1.Dir = vs.Dir ∧
      (vp.prepare vs key).1.FileName = vs.FileName ∧
      (vp.prepare vs key).1.FileMode = vs.FileMode ∧
      (vp.prepare vs key).1.Import = vs.Import ∧
      (vp.prepare vs key).1.Properties = vs.Properties := by
  unfold ValidateProject.prepare
  by_cases hn : vs.Name = "" <;> by_cases h1 : vs.MethodName = "" <;>
    by_cases h2 : vp.MethodName = "" <;>
      simp [hn, h1, h2]

/-- C8, at a struct with `Name` and `MethodName` set under a project with another method
name. -/
theorem prepare_frame_witness :
    (ValidateProject.prepare { MethodName := "Check" }
        { Package := "person", Name := "Human", MethodName := "Verify" } "Person").1.Name =
        "Human" ∧
      (ValidateProject.prepare { MethodName := "Check" }
        { Package := "person", Name := "Human", MethodName := "Verify" } "Person").1.MethodName =
        "Verify" :=
  ⟨(prepare_frame { MethodName := "Check" }
      { Package := "person", Name := "Human", MethodName := "Verify" } "Person").1 (by decide),
   (prepare_frame { MethodName := "Check" }
      { Package := "person", Name := "Human", MethodName := "Verify" } "Person").2.1
      (by decide)⟩

/-- C9: a struct whose `FileMode` is negative or greater than `0777` is rejected by
`ValidateStruct.Validate` whatever its other fields are, and every project whose
`Validators` contain it is rejected by `ValidateProject.Validate`. -/
theorem Validate_FileMode_out_of_range (vs : ValidateStruct)
    (h : vs.FileMode < 0 ∨ 0o777 < vs.FileMode) :
    (∃ err, vs.Validate = some err) ∧
      ∀ (vp : ValidateProject) (key : String), (key, vs) ∈ vp.Validators →
        ∃ err, vp.Validate = some err := by
  have hvs : vs.Validate ≠ none := by
    intro hnone
    unfold ValidateStruct.Validate at hnone
    rw [validation.ValidateStruct_eq_none_iff] at hnone
    have hmode := hnone ("FileMode",
      validation.Validate vs.FileMode [validation.Min 0, validation.Max 0o777]) (by simp)
    simp only [validation.Validate, validation.Min, validation.Max] at hmode
    split_ifs at hmode <;> simp at hmode <;> omega
  refine ⟨validation.exists_eq_some_of_ne_none hvs, ?_⟩
  intro vp key hmem
  apply validation.exists_eq_some_of_ne_none
  intro hnone
  unfold ValidateProject.Validate at hnone
  rw [validation.ValidateStruct_eq_none_iff] at hnone
  have hmap := hnone ("Validators",
    validation.ValidateMap vp.Validators [validation.RequiredMap] ValidateStruct.Validate)
    (by simp)
  rw [validation.ValidateMap_eq_none_iff] at hmap
  exact hvs (hmap.2 (key, vs) hmem)

/-- C9, at a struct with `FileMode = 01000` and the project that holds it. -/
theorem Validate_FileMode_out_of_range_witness :
    (∃ err, badModeStruct.Validate = some err) ∧
      ∃ err, badModeProject.Validate = some err :=
  ⟨(Validate_FileMode_out_of_range badModeStruct (Or.inr (by decide))).1,
   (Validate_FileMode_out_of_range badModeStruct (Or.inr (by decide))).2
      badModeProject "Person" (by simp [badModeProject])⟩

/-- C10, as stated, fails at `nestedLengthProject`: its property has `Each = [{Length =
[5, 2]}]`, a length that `checkLength` rejects, and `ValidateProject.Validate` accepts the
project. -/
theorem Validate_nested_counterexample :
    (∃ validator ∈ nestedLengthProject.Validators,
      ∃ property ∈ validator.2.Properties,
        ∃ rule ∈ property.2.Rule.Each, (checkLength rule.Length).isSome = true) ∧
      nestedLengthProject.Validate = none := by
  refine ⟨?_, rfl⟩
  decide

/-- C10, amended: the length-pair rule is applied to the `Length` and `RuneLength` of each
property itself, and a project in which one of these is rejected by `checkLength` is
rejected; the rules nested under `Each` and `Else` are not validated, the result of
`ValidateProject.Validate` being the same as on the project with every `Each` and `Else`
emptied. -/
theorem Validate_length_top_level_only (vp : ValidateProject) :
    vp.Validate = vp.dropNested.Validate ∧
      ∀ (validator : String × ValidateStruct) (property : String × ValidateProperty),
        validator ∈ vp.Validators → property ∈ validator.2.Properties →
        (checkLength property.2.Rule.Length ≠ none ∨
          checkLength property.2.Rule.RuneLength ≠ none) →
        ∃ err, vp.Validate = some err := by
  refine ⟨(ValidateProject_Validate_dropNested vp).symm, ?_⟩
  intro validator property hv hp hlen
  apply validation.exists_eq_some_of_ne_none
  apply ValidateProject_Validate_ne_none_of_validator vp validator hv
  apply ValidateStruct_Validate_ne_none_of_property validator.2 property hp
  exact ValidateProperty_Validate_ne_none_of_checkLength property.2 hlen

/-- C10, amended, at `nestedLengthProject` (accepted, like the project without its nested
rules) and at `badLengthProject` (rejected for `Length = [5, 2]`). -/
theorem Validate_length_top_level_only_witness :
    nestedLengthProject.Validate = nestedLengthProject.dropNested.Validate ∧
      ∃ err, badLengthProject.Validate = some err :=
  ⟨(Validate_length_top_level_only nestedLengthProject).1,
   (Validate_length_top_level_only badLengthProject).2
      ("Person",
        { Package := "person",
          Properties :=
            [("Tags",
              { «Type» := "array",
                Rule := { Length := [5, 2], Each := [], Else := [] } })] })
      ("Tags", { «Type» := "array", Rule := { Length := [5, 2], Each := [], Else := [] } })
      (by simp [badLengthProject]) (by simp) (Or.inl (by simp [checkLength]))⟩

/-- C11: a project in which some property of some validator has a top-level `Length` or
`RuneLength` rejected by `checkLength` is rejected by `ValidateProject.Validate`, whatever
the rest of the project is; `ParseToml` then returns that error and no project, and the
command panics with it before `Generate` is called. -/
theorem Validate_bad_length_aborts (vp : ValidateProject)
    (validator : String × ValidateStruct) (property : String × ValidateProperty)
    (template : Option String)
    (hv : validator ∈ vp.Validators) (hp : property ∈ validator.2.Properties)
    (hlen : checkLength property.2.Rule.Length ≠ none ∨
      checkLength property.2.Rule.RuneLength ≠ none) :
    ∃ err, vp.Validate = some err ∧
      ParseToml ValidateProject.Validate (Except.ok vp) = Except.error err ∧
      generateCmdRun (Except.ok vp) template = Except.error err := by
  have hne : vp.Validate ≠ none :=
    ValidateProject_Validate_ne_none_of_validator vp validator hv
      (ValidateStruct_Validate_ne_none_of_property validator.2 property hp
        (ValidateProperty_Validate_ne_none_of_checkLength property.2 hlen))
  obtain ⟨err, herr⟩ := validation.exists_eq_some_of_ne_none hne
  refine ⟨err, herr, ?_, ?_⟩
  · simp only [ParseToml, herr]
  · simp only [generateCmdRun, ParseToml, herr]

/-- C11, at the project whose one property has `Length = [5, 2]`. -/
theorem Validate_bad_length_aborts_witness :
    ∃ err, badLengthProject.Validate = some err ∧
      ParseToml ValidateProject.Validate (Except.ok badLengthProject) = Except.error err ∧
      generateCmdRun (Except.ok badLengthProject) none = Except.error err :=
  Validate_bad_length_aborts badLengthProject
    ("Person",
      { Package := "person",
        Properties :=
          [("Tags",
            { «Type» := "array",
              Rule := { Length := [5, 2], Each := [], Else := [] } })] })
    ("Tags", { «Type» := "array", Rule := { Length := [5, 2], Each := [], Else := [] } })
    none (by simp [badLengthProject]) (by simp) (Or.inl (by simp [checkLength]))

/-- C12: `ValidateProject.Validate` returns no error if and only if `Type` is "struct" or
"map", `MethodName` is empty or made of ASCII letters and digits, `Validators` is not
empty, every validator has a `Name` that is empty or alphanumeric, a `FileMode` in
`[0, 0777]` and a non-empty `Properties`, and every property has a `Name` that is empty or
alphanumeric, a `Type` among "int", "float", "string", "object", "array", and a `Length`
and a `RuneLength` of its own that `checkLength` accepts. -/
theorem ValidateProject_Validate_accepts_iff (vp : ValidateProject) :
    vp.Validate = none ↔
      (vp.«Type» = "struct" ∨ vp.«Type» = "map") ∧
      (vp.MethodName = "" ∨ ∀ c ∈ vp.MethodName.data, is.isAlphanumericChar c = true) ∧
      vp.Validators ≠ [] ∧
      ∀ validator ∈ vp.Validators,
        (validator.2.Name = "" ∨
          ∀ c ∈ validator.2.Name.data, is.isAlphanumericChar c = true) ∧
        (0 ≤ validator.2.FileMode ∧ validator.2.FileMode ≤ 0o777) ∧
        validator.2.Properties ≠ [] ∧
        ∀ property ∈ validator.2.Properties,
          (property.2.Name = "" ∨
            ∀ c ∈ property.2.Name.data, is.isAlphanumericChar c = true) ∧
          (property.2.«Type» = "int" ∨ property.2.«Type» = "float" ∨
            property.2.«Type» = "string" ∨ property.2.«Type» = "object" ∨
            property.2.«Type» = "array") ∧
          checkLength property.2.Rule.Length = none ∧
          checkLength property.2.Rule.RuneLength = none := by
  have hkind : ∀ t : String,
      (t ≠ "" ∧ t ∈ ["struct", "map"]) ↔ (t = "struct" ∨ t = "map") := by
    intro t
    simp only [List.mem_cons, List.mem_singleton, List.not_mem_nil, or_false]
    constructor
    · exact fun h => h.2
    · rintro (h | h) <;> subst h <;> exact ⟨by decide, by simp⟩
  have htype : ∀ t : String,
      (t ≠ "" ∧ t ∈ ["int", "float", "string", "object", "array"]) ↔
        (t = "int" ∨ t = "float" ∨ t = "string" ∨ t = "object" ∨ t = "array") := by
    intro t
    simp only [List.mem_cons, List.mem_singleton, List.not_mem_nil, or_false]
    constructor
    · exact fun h => h.2
    · rintro (h | h | h | h | h) <;> subst h <;> exact ⟨by decide, by simp⟩
  rw [ValidateProject_Validate_eq_none_iff]
  simp only [ValidateStruct_Validate_eq_none_iff, ValidateProperty_Validate_eq_none_iff,
    hkind, htype]

/-- C12, at the scenario project (accepted) and at the same project with an empty `Type`
(rejected). -/
theorem ValidateProject_Validate_accepts_iff_witness :
    personProject.Validate = none ∧
      ({ personProject with «Type» := "" } : ValidateProject).Validate ≠ none := by
  constructor
  · apply (ValidateProject_Validate_accepts_iff personProject).mpr
    refine ⟨Or.inl rfl, Or.inl rfl, by simp [personProject], ?_⟩
    intro validator hv
    simp only [personProject, List.mem_singleton] at hv
    subst hv
    refine ⟨Or.inl rfl, ⟨by decide, by decide⟩, by simp [personStruct], ?_⟩
    intro property hp
    simp only [personStruct, List.mem_cons, List.mem_singleton, List.not_mem_nil,
      or_false] at hp
    rcases hp with hp | hp <;> subst hp
    · exact ⟨Or.inl rfl, Or.inr (Or.inr (Or.inl rfl)), rfl, rfl⟩
    · exact ⟨Or.inl rfl, Or.inl rfl, rfl, rfl⟩
  · intro hnone
    exact absurd
      ((ValidateProject_Validate_accepts_iff { personProject with «Type» := "" }).mp hnone).1
      (by decide)

/-- C13, as stated, fails at `regexpListedStruct`: its import list `["regexp"]` has no
duplicate, a property triggers "regexp", and the list after the call is
`["regexp", "regexp"]`; and at `matchStruct` a second call does not give the list of the
first call. -/
theorem prepareIsValidators_dedup_counterexample :
    regexpListedStruct.Import.Nodup ∧
      (ValidateProject.prepareIsValidators {} regexpListedStruct).Import =
        ["regexp", "regexp"] ∧
      ¬ (ValidateProject.prepareIsValidators {} regexpListedStruct).Import.Nodup ∧
      (ValidateProject.prepareIsValidators {}
          (ValidateProject.prepareIsValidators {} matchStruct)).Import ≠
        (ValidateProject.prepareIsValidators {} matchStruct).Import := by
  decide

/-- C13, amended: `prepareIsValidators` appends without looking at what the import list
holds: for every struct the list after the call is the list before it, then "regexp" if a
property has a `Match`, then the is reference if a property sets a format predicate. When
the list has no duplicate and does not already hold a reference that a property triggers,
the list after the call has no duplicate. For every struct a second call appends the
entries of the first call once more, so two calls give the list of one call only when no
property triggers a reference. -/
theorem prepareIsValidators_nodup (vp : ValidateProject) (vs : ValidateStruct) :
    (vp.prepareIsValidators vs).Import =
        vs.Import
          ++ (if ∃ entry ∈ vs.Properties, entry.2.Rule.Match ≠ "" then ["regexp"] else [])
          ++ (if ∃ entry ∈ vs.Properties, isRuleCondition entry.2 = true
              then ["github.com/go-ozzo/ozzo-validation/v4/is"] else []) ∧
      (vs.Import.Nodup →
        ((∃ entry ∈ vs.Properties, entry.2.Rule.Match ≠ "") → "regexp" ∉ vs.Import) →
        ((∃ entry ∈ vs.Properties, isRuleCondition entry.2 = true) →
          "github.com/go-ozzo/ozzo-validation/v4/is" ∉ vs.Import) →
        (vp.prepareIsValidators vs).Import.Nodup) ∧
      (vp.prepareIsValidators (vp.prepareIsValidators vs)).Import =
        (vp.prepareIsValidators vs).Import ++
          (vp.prepareIsValidators vs).Import.drop vs.Import.length ∧
      ((vp.prepareIsValidators (vp.prepareIsValidators vs)).Import =
          (vp.prepareIsValidators vs).Import ↔
        (¬ ∃ entry ∈ vs.Properties, entry.2.Rule.Match ≠ "") ∧
          ¬ ∃ entry ∈ vs.Properties, isRuleCondition entry.2 = true) := by
  have hex1 : (∃ entry ∈ vs.Properties, entry.2.Rule.Match ≠ "") ↔
      vs.Properties.any (fun entry => decide (entry.2.Rule.Match ≠ "")) = true := by
    simp
  have hex2 : (∃ entry ∈ vs.Properties, isRuleCondition entry.2 = true) ↔
      vs.Properties.any (fun entry => isRuleCondition entry.2) = true := by
    simp
  have htwice : (vp.prepareIsValidators (vp.prepareIsValidators vs)).Import =
      (vp.prepareIsValidators vs).Import ++
        (vp.prepareIsValidators vs).Import.drop vs.Import.length := by
    rw [prepareIsValidators_Import_eq vp (vp.prepareIsValidators vs),
      prepareIsValidators_Properties_eq, prepareIsValidators_Import_eq vp vs]
    simp only [List.append_assoc, List.drop_left]
  refine ⟨?_, ?_, htwice, ?_⟩
  · rw [prepareIsValidators_Import_eq]
    simp only [hex1, hex2]
  · intro hnodup hregexp his
    rw [hex1] at hregexp
    rw [hex2] at his
    rw [prepareIsValidators_Import_eq]
    cases h1 : vs.Properties.any (fun entry => decide (entry.2.Rule.Match ≠ "")) <;>
      cases h2 : vs.Properties.any (fun entry => isRuleCondition entry.2)
    · simpa using hnodup
    · have hnot := his h2
      simp only [Bool.false_eq_true, if_false, if_true, List.append_nil]
      rw [List.nodup_append]
      refine ⟨hnodup, by simp, ?_⟩
      intro a ha hb
      simp only [List.mem_singleton] at hb
      exact hnot (hb ▸ ha)
    · have hnot := hregexp h1
      simp only [Bool.false_eq_true, if_false, if_true, List.append_nil]
      rw [List.nodup_append]
      refine ⟨hnodup, by simp, ?_⟩
      intro a ha hb
      simp only [List.mem_singleton] at hb
      exact hnot (hb ▸ ha)
    · have hnot1 := hregexp h1
      have hnot2 := his h2
      simp only [if_true, List.append_assoc, List.singleton_append]
      rw [List.nodup_append]
      refine ⟨hnodup, by decide, ?_⟩
      intro a ha hb
      simp only [List.mem_cons, List.mem_singleton, List.not_mem_nil, or_false] at hb
      rcases hb with hb | hb
      · exact hnot1 (hb ▸ ha)
      · exact hnot2 (hb ▸ ha)
  · rw [htwice, hex1, hex2, prepareIsValidators_Import_eq]
    simp only [List.append_assoc, List.drop_left]
    cases vs.Properties.any (fun entry => decide (entry.2.Rule.Match ≠ "")) <;>
      cases vs.Properties.any (fun entry => isRuleCondition entry.2) <;> simp

/-- C13, amended, at `emailAndMatchStruct`, whose list `["fmt"]` holds no triggered
reference (no duplicate after the call), and at `regexpListedStruct`, whose list already
holds "regexp" (a third copy after the second call). -/
theorem prepareIsValidators_nodup_witness :
    (ValidateProject.prepareIsValidators {} emailAndMatchStruct).Import.Nodup ∧
      (ValidateProject.prepareIsValidators {}
          (ValidateProject.prepareIsValidators {} regexpListedStruct)).Import =
        ["regexp", "regexp", "regexp"] :=
  ⟨(prepareIsValidators_nodup {} emailAndMatchStruct).2.1 (by decide)
      (fun _ => by decide) (fun _ => by decide),
   ((prepareIsValidators_nodup {} regexpListedStruct).2.2.1).trans (by decide)⟩

/-- C14: for a struct with an empty import list and at least one property with
`Email = true`, the reference "github.com/go-ozzo/ozzo-validation/v4/is" occurs exactly
once in the import list after `prepareIsValidators`, however many properties and
predicates are set. -/
theorem prepareIsValidators_is_once (vp : ValidateProject) (vs : ValidateStruct)
    (hempty : vs.Import = [])
    (hemail : ∃ entry ∈ vs.Properties, entry.2.Rule.Is.Email = true) :
    (vp.prepareIsValidators vs).Import.count
      "github.com/go-ozzo/ozzo-validation/v4/is" = 1 := by
  have hany : vs.Properties.any (fun entry => isRuleCondition entry.2) = true := by
    rw [List.any_eq_true]
    obtain ⟨entry, hmem, he⟩ := hemail
    refine ⟨entry, hmem, ?_⟩
    simp [isRuleCondition, he]
  rw [prepareIsValidators_Import_eq, hany, hempty]
  cases vs.Properties.any (fun entry => decide (entry.2.Rule.Match ≠ "")) <;> decide

/-- C14, at a struct with two properties and four predicates set. -/
theorem prepareIsValidators_is_once_witness :
    (ValidateProject.prepareIsValidators {} emailStruct).Import.count
      "github.com/go-ozzo/ozzo-validation/v4/is" = 1 :=
  prepareIsValidators_is_once {} emailStruct rfl (by decide)

/-- C15: `isValidIntList`, `isValidFloatList` and `isValidStringList` say that `Int`,
`Float` and `String` are non-empty; `isValidNumericList` is `isValidIntList` or
`isValidFloatList` and does not read `String`. -/
theorem isValidList_spec (v : TypedList) :
    (isValidIntList v = true ↔ v.Int ≠ []) ∧
      (isValidFloatList v = true ↔ v.Float ≠ []) ∧
      (isValidStringList v = true ↔ v.String ≠ []) ∧
      isValidNumericList v = (isValidIntList v || isValidFloatList v) ∧
      ∀ strings : List String,
        isValidNumericList { v with String := strings } = isValidNumericList v := by
  refine ⟨?_, ?_, ?_, ?_, ?_⟩
  · simp [isValidIntList, List.length_pos]
  · simp [isValidFloatList, List.length_pos]
  · simp [isValidStringList, List.length_pos]
  · unfold isValidNumericList isValidIntList isValidFloatList
    by_cases h : v.Int.length > 0 <;> simp [h]
  · intro strings
    rfl

/-- C16: the scenario project (`Type = "struct"`, one validator "Person" with
`Package = "person"` and the properties `Name` and `Age`) is accepted by
`ValidateProject.Validate`; `prepare` sets `Name = "Person"` and `MethodName = "Validate"`
and returns the path "person/person_validator.go" with permission `0644`; and
`prepareIsValidators` leaves the import list empty. -/
theorem person_scenario :
    personProject.Validators = [("Person", personStruct)] ∧
      personProject.Validate = none ∧
      (personProject.prepare personStruct "Person").1.Name = "Person" ∧
      (personProject.prepare personStruct "Person").1.MethodName = "Validate" ∧
      (personProject.prepare personStruct "Person").2.1 = "person/person_validator.go" ∧
      (personProject.prepare personStruct "Person").2.2 = 0o644 ∧
      (personProject.prepareIsValidators
        (personProject.prepare personStruct "Person").1).Import = [] := by
  refine ⟨rfl, rfl, ?_, ?_, ?_, ?_, ?_⟩ <;> decide

/-- C17: `prepareIsValidators` only appends: the import list after the call is the list
before it followed by nothing, by "regexp", by the is reference, or by "regexp" and then
the is reference; every other field of the struct is unchanged. -/
theorem prepareIsValidators_only_appends (vp : ValidateProject) (vs : ValidateStruct) :
    (∃ added : List String,
        (vp.prepareIsValidators vs).Import = vs.Import ++ added ∧
        (added = [] ∨ added = ["regexp"] ∨
          added = ["github.com/go-ozzo/ozzo-validation/v4/is"] ∨
          added = ["regexp", "github.com/go-ozzo/ozzo-validation/v4/is"])) ∧
      (vp.prepareIsValidators vs).Package = vs.Package ∧
      (vp.prepareIsValidators vs).Name = vs.Name ∧
      (vp.prepareIsValidators vs).Dir = vs.Dir ∧
      (vp.prepareIsValidators vs).FileName = vs.FileName ∧
      (vp.prepareIsValidators vs).FileMode = vs.FileMode ∧
      (vp.prepareIsValidators vs).MethodName = vs.MethodName ∧
      (vp.prepareIsValidators vs).Properties = vs.Properties := by
  constructor
  · rw [prepareIsValidators_Import_eq]
    cases vs.Properties.any (fun entry => decide (entry.2.Rule.Match ≠ "")) <;>
      cases vs.Properties.any (fun entry => isRuleCondition entry.2)
    · exact ⟨[], by simp, Or.inl rfl⟩
    · exact ⟨["github.com/go-ozzo/ozzo-validation/v4/is"], by simp, Or.inr (Or.inr (Or.inl rfl))⟩
    · exact ⟨["regexp"], by simp, Or.inr (Or.inl rfl)⟩
    · exact ⟨["regexp", "github.com/go-ozzo/ozzo-validation/v4/is"], by simp,
        Or.inr (Or.inr (Or.inr rfl))⟩
  · unfold ValidateProject.prepareIsValidators
    generalize vs.Properties.foldl prepareIsValidatorsStep (false, false) = flags
    obtain ⟨hasRegexp, hasIsValidator⟩ := flags
    cases hasRegexp <;> cases hasIsValidator <;> exact ⟨rfl, rfl, rfl, rfl, rfl, rfl, rfl⟩

/-- C18: the import list after `prepareIsValidators` does not depend on the order in
which the properties are visited: two enumerations of the same properties give the same
list. -/
theorem prepareIsValidators_order_independent (vp : ValidateProject) (vs : ValidateStruct)
    (props : List (String × ValidateProperty)) (hperm : props.Perm vs.Properties) :
    (vp.prepareIsValidators { vs with Properties := props }).Import =
      (vp.prepareIsValidators vs).Import := by
  rw [prepareIsValidators_Import_eq, prepareIsValidators_Import_eq]
  show vs.Import ++ (if props.any _ = true then _ else _) ++
    (if props.any _ = true then _ else _) = _
  rw [any_eq_of_perm _ hperm, any_eq_of_perm _ hperm]

/-- C18, at `emailAndMatchStruct` with its two properties visited in the other order. -/
theorem prepareIsValidators_order_independent_witness :
    (ValidateProject.prepareIsValidators {}
        { emailAndMatchStruct with Properties := swappedProperties }).Import =
      (ValidateProject.prepareIsValidators {} emailAndMatchStruct).Import :=
  prepareIsValidators_order_independent {} emailAndMatchStruct swappedProperties
    (List.Perm.swap _ _ [])

/-- C19: `prepare` is idempotent: a second call on the prepared struct leaves it unchanged
and returns the same path and permission. -/
theorem prepare_idempotent (vp : ValidateProject) (vs : ValidateStruct) (key : String) :
    vp.prepare (vp.prepare vs key).1 key = vp.prepare vs key := by
  unfold ValidateProject.prepare
  by_cases hn : vs.Name = "" <;> by_cases hk : key = "" <;>
    by_cases h1 : vs.MethodName = "" <;> by_cases h2 : vp.MethodName = "" <;>
      simp [hn, hk, h1, h2]

/-- C20: for a struct accepted by `ValidateStruct.Validate` the permission returned by
`prepare` lies in `[1, 0777]`: it is not 0 and has no bit outside the nine permission
bits. -/
theorem prepare_permission_range (vp : ValidateProject) (vs : ValidateStruct) (key : String)
    (hvalid : vs.Validate = none) :
    1 ≤ (vp.prepare vs key).2.2 ∧ (vp.prepare vs key).2.2 ≤ 0o777 ∧
      (vp.prepare vs key).2.2 % 2 ^ 9 = (vp.prepare vs key).2.2 := by
  have hrange := ((ValidateStruct_Validate_eq_none_iff vs).mp hvalid).2.1
  have hperm := prepare_permission_eq vp vs key
  by_cases h0 : vs.FileMode = 0
  · rw [if_pos h0] at hperm
    rw [hperm]
    decide
  · rw [if_neg h0] at hperm
    have hmod : vs.FileMode % 2 ^ 32 = vs.FileMode :=
      Int.emod_eq_of_lt hrange.1 (by omega)
    rw [hmod] at hperm
    have hle : (vp.prepare vs key).2.2 ≤ 0o777 := by
      rw [hperm]
      omega
    refine ⟨?_, hle, Nat.mod_eq_of_lt (by omega)⟩
    rw [hperm]
    omega

/-- C20, at the scenario validator (permission `0644`) and at a struct with
`FileMode = 0600`. -/
theorem prepare_permission_range_witness :
    (1 ≤ (ValidateProject.prepare {} personStruct "Person").2.2 ∧
        (ValidateProject.prepare {} personStruct "Person").2.2 ≤ 0o777) ∧
      (1 ≤ (ValidateProject.prepare {} { personStruct with FileMode := 0o600 } "Person").2.2 ∧
        (ValidateProject.prepare {} { personStruct with FileMode := 0o600 } "Person").2.2 ≤
          0o777) :=
  ⟨⟨(prepare_permission_range {} personStruct "Person" rfl).1,
    (prepare_permission_range {} personStruct "Person" rfl).2.1⟩,
   ⟨(prepare_permission_range {} { personStruct with FileMode := 0o600 } "Person" rfl).1,
    (prepare_permission_range {} { personStruct with FileMode := 0o600 } "Person" rfl).2.1⟩⟩

end generator
